import Mathlib

/-!
# General-ledger service: a shallow embedding

Embedding of the core service layer of the `general-ledger` repository
(`app/services/entry_service.py`, `app/services/account_service.py`,
`app/services/summary_service.py`, `app/utils/db_helpers.py`) together with
the data model (`app/db/models/account_model.py`,
`app/db/models/ledger_entry_model.py`).

Modelling conventions:
* `Decimal` amounts (SQL `Numeric(12, 2)`) are exact 2-decimal values; they
  are represented as integer cents (`ℤ`), so exact decimal equality is
  integer equality.
* `datetime` values are represented as integer timestamps (`Int`).
* `uuid` identifiers are represented as `Nat`.
* The float exchange rate returned by `get_usd_to_cad_rate` is an exact
  rational (every Python float is one), passed as a `ℚ` parameter that models
  a successful gateway call.
* The database session is a `Store` value: the `accounts` and
  `ledger_entries` tables as lists of rows.  SQLAlchemy's
  `scalar_one_or_none` / `Result.first()` on a filtered select is `List.find?`
  with the `where`-clause predicate; `db.add` + `commit` appends a row;
  mutating a fetched row and committing rewrites the rows matched by the
  fetch predicate.
* `HTTPException(status_code=s, detail=d)` is `Err.http s d`; an uncaught
  Python `ValueError` (e.g. from `datetime.fromisoformat` or `EntryType(...)`
  on bad input) is `Err.pyValueError`; an uncaught Python `TypeError` (from
  `await`ing a non-awaitable, as `summary_service.py` does on the
  synchronous `Result.first()`/`Result.all()`) is `Err.pyTypeError`.
* `datetime.fromisoformat` is abstracted as an integer parser
  (`parseDate`): a parseable date string denotes its timestamp, an
  unparseable one raises `ValueError`.  The claims under study depend only on
  this success/failure shape and on the order comparisons of parsed dates.
* Python's `round(d, 2)` on a `Decimal` uses the default decimal context
  rounding, `ROUND_HALF_EVEN`; it is embedded as `roundHalfEven` on the
  exact product (the 28-significant-digit context precision is abstracted
  away).
* Python truthiness of an optional string parameter (`if account_name:`) is
  `isTruthy`: both `None` and `""` are falsy.
-/

deriving instance DecidableEq for Except

namespace Ledger

/-- `EntryType` (`app/schemas/ledger_entry_schema.py` and the DB model): the
canonical debit/credit sum type. -/
inductive EntryType where
  | debit
  | credit
deriving DecidableEq, Repr

/-- A row of the `accounts` table (`DBAccount`,
`app/db/models/account_model.py`). -/
structure Account where
  id : Nat
  name : String
  is_active : Bool
  created_at : Int
deriving DecidableEq, Repr

/-- A row of the `ledger_entries` table (`DBLedgerEntry`,
`app/db/models/ledger_entry_model.py`).  `amount` is in cents. -/
structure LedgerEntry where
  id : Nat
  account_id : Nat
  date : Int
  entry_type : EntryType
  amount : ℤ
  currency : String
  description : Option String
  created_at : Int
  updated_at : Int
  is_deleted : Bool
  version : Nat
  idempotency_key : String
deriving DecidableEq, Repr

/-- The persistent store: the two tables seen by one request's session. -/
structure Store where
  accounts : List Account
  entries : List LedgerEntry
deriving DecidableEq, Repr

/-- A failure surfaced by a service function: an `HTTPException` with status
code and detail, or an uncaught Python exception (`ValueError` from a bad
date or entry-type value, `TypeError` from awaiting a non-awaitable). -/
inductive Err where
  | http (status : Nat) (detail : String)
  | pyValueError
  | pyTypeError
deriving DecidableEq, Repr

/-- Request body of `POST /entries` (`LedgerEntryCreate`,
`app/schemas/ledger_entry_schema.py`); schema-level validation is out of
scope, the service receives the parsed model. -/
structure LedgerEntryCreate where
  account_name : String
  date : Option Int
  entry_type : EntryType
  amount : ℤ
  currency : String
  description : Option String
  idempotency_key : String
deriving DecidableEq, Repr

/-- Request body of `PATCH /entries/{id}` (`LedgerEntryUpdate`). -/
structure LedgerEntryUpdate where
  amount : Option ℤ
  description : Option String
deriving DecidableEq, Repr

/-- Response model `LedgerEntryOut`: the entry fields plus the optional
`canadian_amount` enrichment.  `DBLedgerEntry` exposes no `account_name`
attribute, so `model_validate` falls back to the field's `None` default;
the embedding therefore leaves `account_name` out. -/
structure LedgerEntryOut where
  id : Nat
  account_id : Nat
  date : Int
  entry_type : EntryType
  amount : ℤ
  currency : String
  description : Option String
  created_at : Int
  updated_at : Int
  is_deleted : Bool
  version : Nat
  idempotency_key : String
  canadian_amount : Option ℤ
deriving DecidableEq, Repr

/-- Response model `LedgerEntryDeletedResponse`. -/
structure LedgerEntryDeletedResponse where
  id : Nat
  is_deleted : Bool
  version : Nat
deriving DecidableEq, Repr

/-- Response model `LedgerEntryListResponse`. -/
structure LedgerEntryListResponse where
  total : Nat
  limit : Nat
  offset : Nat
  entries : List LedgerEntryOut
deriving DecidableEq, Repr

/-- Response model `SummaryOut` (`app/schemas/summary_schema.py`); totals in
cents. -/
structure SummaryOut where
  num_debits : Nat
  total_debit_amount : ℤ
  num_credits : Nat
  total_credit_amount : ℤ
  is_balanced : Bool
deriving DecidableEq, Repr

/-- Request body of `PATCH /accounts/{id}` (`AccountUpdate`). -/
structure AccountUpdate where
  name : Option String
  is_active : Option Bool
deriving DecidableEq, Repr

/-- Response model `AccountOut`. -/
structure AccountOut where
  id : Nat
  name : String
  is_active : Bool
  created_at : Int
deriving DecidableEq, Repr

/-- Python truthiness of an optional string parameter: `None` and the empty
string are falsy. -/
def isTruthy (o : Option String) : Bool :=
  o.getD "" != ""

/-- `(x or "")` on an optional string: the null/empty-string normalisation
used by `create_entry` and `update_entry`. -/
def descNorm (o : Option String) : String :=
  o.getD ""

/-- Round an exact rational to the nearest integer, ties to even: Python's
built-in `round` on a `Decimal` (default context `ROUND_HALF_EVEN`). -/
def roundHalfEven (q : ℚ) : ℤ :=
  let n := ⌊q⌋
  let frac := q - n
  if frac < 1 / 2 then n
  else if 1 / 2 < frac then n + 1
  else if n % 2 = 0 then n else n + 1

/-- `round(amount * Decimal(usd_to_cad), 2)` in cents: the converted
display amount of an entry of `cents` cents at rate `rate`. -/
def convertAmount (rate : ℚ) (cents : ℤ) : ℤ :=
  roundHalfEven ((cents : ℚ) * rate)

/-- `LedgerEntryOut.model_validate(e)`, with `canadian_amount` as assigned
afterwards (`none` when no enrichment is injected). -/
def toOut (e : LedgerEntry) (cad : Option ℤ) : LedgerEntryOut :=
  { id := e.id
    account_id := e.account_id
    date := e.date
    entry_type := e.entry_type
    amount := e.amount
    currency := e.currency
    description := e.description
    created_at := e.created_at
    updated_at := e.updated_at
    is_deleted := e.is_deleted
    version := e.version
    idempotency_key := e.idempotency_key
    canadian_amount := cad }

/-- The `select(DBAccount).where(name == n, is_active.is_(True))` lookup used
by `create_entry` (exact, case-sensitive name match). -/
def findActiveAccount (db : Store) (n : String) : Option Account :=
  db.accounts.find? (fun a => a.name == n && a.is_active)

/-- The idempotency-key lookup of `create_entry`: any entry, active or
deleted, with the given key. -/
def findByIdemKey (db : Store) (key : String) : Option LedgerEntry :=
  db.entries.find? (fun e => e.idempotency_key == key)

/-- The `select(DBLedgerEntry).where(id == entry_id, is_deleted.is_(False))`
fetch shared by read, update and delete. -/
def findActiveEntry (db : Store) (eid : Nat) : Option LedgerEntry :=
  db.entries.find? (fun e => e.id == eid && !e.is_deleted)

/-- Commit of a mutation made to the row(s) fetched by
`findActiveEntry eid`: rewrite each matched row with `f`. -/
def updateActiveEntry (eid : Nat) (f : LedgerEntry → LedgerEntry)
    (db : Store) : Store :=
  { db with
    entries := db.entries.map (fun e =>
      if e.id == eid && !e.is_deleted then f e else e) }

/-- `create_entry` (`app/services/entry_service.py`).  `rate` is the result
of the successful `get_usd_to_cad_rate()` call, `newId` the id the database
generates for a fresh row, `now` the current UTC time. -/
def create_entry (rate : ℚ) (newId : Nat) (now : Int)
    (entry : LedgerEntryCreate) (db : Store) :
    Except Err (Store × LedgerEntryOut) :=
  match findActiveAccount db entry.account_name with
  | none => .error (.http 404 "Account not found or inactive")
  | some account =>
    match findByIdemKey db entry.idempotency_key with
    | some existing_entry =>
      -- Strict idempotency enforcement: reject if any data differs
      if existing_entry.account_id ≠ account.id
          ∨ existing_entry.entry_type ≠ entry.entry_type
          ∨ existing_entry.amount ≠ entry.amount
          ∨ existing_entry.currency ≠ entry.currency
          ∨ descNorm existing_entry.description ≠ descNorm entry.description
      then .error (.http 409 "Idempotency key already used with different data")
      else .ok (db, toOut existing_entry none)
    | none =>
      let new_entry : LedgerEntry :=
        { id := newId
          account_id := account.id
          entry_type := entry.entry_type
          amount := entry.amount
          currency := entry.currency
          description := entry.description
          date := entry.date.getD now
          created_at := now
          updated_at := now
          is_deleted := false
          version := 1
          idempotency_key := entry.idempotency_key }
      .ok ({ db with entries := db.entries ++ [new_entry] },
        toOut new_entry (some (convertAmount rate entry.amount)))

/-- The in-place mutation `update_entry` applies to the fetched row once a
change is detected. -/
def applyEntryUpdate (update : LedgerEntryUpdate) (now : Int)
    (e : LedgerEntry) : LedgerEntry :=
  { e with
    amount := update.amount.getD e.amount
    description := match update.description with
      | some d => some d
      | none => e.description
    updated_at := now
    version := e.version + 1 }

/-- The change detection of `update_entry`: a supplied amount differing
from the stored one, or a supplied description differing from the stored
one after null/empty normalisation. -/
def changesDetected (update : LedgerEntryUpdate) (e : LedgerEntry) : Bool :=
  (match update.amount with
    | some a => a != e.amount
    | none => false)
  || (match update.description with
    | some d => descNorm (some d) != descNorm e.description
    | none => false)

/-- `update_entry` (`app/services/entry_service.py`). -/
def update_entry (rate : ℚ) (now : Int) (entry_id : Nat)
    (update : LedgerEntryUpdate) (db : Store) :
    Except Err (Store × LedgerEntryOut) :=
  if update.amount = none ∧ update.description = none then
    .error (.http 400 "No fields provided to update")
  else
    match findActiveEntry db entry_id with
    | none => .error (.http 404 "Ledger entry not found")
    | some entry =>
      -- Check if any actual change is being made
      if !changesDetected update entry then
        .error (.http 400 "No changes detected in update")
      else
        let entry' := applyEntryUpdate update now entry
        .ok (updateActiveEntry entry_id (applyEntryUpdate update now) db,
          toOut entry' (some (convertAmount rate entry'.amount)))

/-- The in-place mutation `delete_entry` applies to the fetched row:
`is_deleted = True`, `updated_at = now`, `version += 1`. -/
def softDelete (now : Int) (e : LedgerEntry) : LedgerEntry :=
  { e with is_deleted := true, updated_at := now, version := e.version + 1 }

/-- `delete_entry` (`app/services/entry_service.py`): soft delete. -/
def delete_entry (now : Int) (entry_id : Nat) (db : Store) :
    Except Err (Store × LedgerEntryDeletedResponse) :=
  match findActiveEntry db entry_id with
  | none => .error (.http 404 "Ledger entry not found")
  | some entry =>
    .ok (updateActiveEntry entry_id (softDelete now) db,
      { id := entry.id, is_deleted := true, version := entry.version + 1 })

/-- `EntryType(entry_type)` by value; an unknown value raises `ValueError`. -/
def parseEntryType (s : String) : Option EntryType :=
  if s == "debit" then some .debit
  else if s == "credit" then some .credit
  else none

/-- The `entry_type` filter clause of `list_entries`: skipped when the
parameter is falsy, otherwise `EntryType(entry_type)` which raises
`ValueError` on an unknown value. -/
def parseEtFilter (o : Option String) : Except Err (Option EntryType) :=
  if isTruthy o then
    match parseEntryType (o.getD "") with
    | some t => .ok (some t)
    | none => .error .pyValueError
  else .ok none

/-- Digits-to-number accumulator for `parseDate`. -/
def digitsToNat? : List Char → Nat → Option Nat
  | [], acc => some acc
  | c :: cs, acc =>
    if c.isDigit then digitsToNat? cs (acc * 10 + (c.toNat - 48)) else none

/-- `datetime.fromisoformat` abstracted as an integer-timestamp parser: a
parseable date string denotes its timestamp (here, a signed decimal
numeral), an unparseable one yields `none` (a raised `ValueError`).  The
claims under study depend only on this success/failure shape and on the
order comparisons of parsed dates. -/
def parseDate (s : String) : Option Int :=
  match s.data with
  | [] => none
  | '-' :: c :: cs => (digitsToNat? (c :: cs) 0).map (fun n => -(n : Int))
  | l => (digitsToNat? l 0).map (fun n => (n : Int))

/-- A date-filter clause of `list_entries`: skipped when the parameter is
falsy, otherwise `datetime.fromisoformat` (abstracted as `parseDate`)
which raises `ValueError` on an unparseable string. -/
def parseDateFilter (o : Option String) : Except Err (Option Int) :=
  if isTruthy o then
    match parseDate (o.getD "") with
    | some d => .ok (some d)
    | none => .error .pyValueError
  else .ok none

/-- The accumulated `where` clauses of `list_entries` applied to one row:
never deleted; account name case-insensitive via the join with `accounts`;
currency normalised to upper case; entry type; inclusive date range. -/
def entryMatches (accounts : List Account) (account_name currency :
    Option String) (etf : Option EntryType) (sdf edf : Option Int)
    (e : LedgerEntry) : Bool :=
  !e.is_deleted
  && (if isTruthy account_name then
        accounts.any (fun a =>
          a.id == e.account_id
          && a.name.toLower == (account_name.getD "").toLower)
      else true)
  && (if isTruthy currency then
        e.currency == (currency.getD "").toUpper
      else true)
  && (match etf with
      | some t => e.entry_type == t
      | none => true)
  && (match sdf with
      | some d => decide (d ≤ e.date)
      | none => true)
  && (match edf with
      | some d => decide (e.date ≤ d)
      | none => true)

/-- Insert an entry into a date-descending list, after all entries of
greater-or-equal date. -/
def insertByDateDesc (e : LedgerEntry) :
    List LedgerEntry → List LedgerEntry
  | [] => [e]
  | x :: xs =>
    if x.date < e.date then e :: x :: xs else x :: insertByDateDesc e xs

/-- `order_by(DBLedgerEntry.date.desc())`: sort by transaction date,
most recent first. -/
def sortByDateDesc : List LedgerEntry → List LedgerEntry
  | [] => []
  | x :: xs => insertByDateDesc x (sortByDateDesc xs)

/-- The page built by `list_entries` once the filter clauses are in place:
order by date descending, apply `offset` then `limit`, and enrich each row
with the converted amount from the single rate fetch shared by the page. -/
def pageOf (rate : ℚ) (account_name currency : Option String)
    (etf : Option EntryType) (sdf edf : Option Int)
    (limit offset : Nat) (db : Store) : List LedgerEntryOut :=
  (((sortByDateDesc (db.entries.filter
      (entryMatches db.accounts account_name currency etf sdf edf))).drop
    offset).take limit).map (fun e =>
    toOut e (some (convertAmount rate e.amount)))

/-- `list_entries` (`app/services/entry_service.py`).  The filter clauses
are built first (raising `ValueError` on a bad entry type or date), the
total is counted before pagination, then `offset` and `limit` are applied
to the date-descending ordering and each page row is enriched with the
converted amount from a single rate fetch. -/
def list_entries (rate : ℚ) (account_name currency entry_type
    start_date end_date : Option String) (limit offset : Nat)
    (db : Store) : Except Err LedgerEntryListResponse :=
  match parseEtFilter entry_type with
  | .error e => .error e
  | .ok etf =>
    match parseDateFilter start_date with
    | .error e => .error e
    | .ok sdf =>
      match parseDateFilter end_date with
      | .error e => .error e
      | .ok edf =>
        .ok { total := (db.entries.filter (entryMatches db.accounts
                account_name currency etf sdf edf)).length
              limit := limit
              offset := offset
              entries := pageOf rate account_name currency etf sdf edf
                limit offset db }

/-- `get_account_or_raise_404` (`app/utils/db_helpers.py`): fetch an account
by id, active or not. -/
def findAccountById (db : Store) (account_id : Nat) : Option Account :=
  db.accounts.find? (fun a => a.id == account_id)

/-- `account_name_exists` (`app/utils/db_helpers.py`): whether any account
row — active or inactive — holds the given name. -/
def account_name_exists (name : String) (db : Store) : Bool :=
  (db.accounts.find? (fun a => a.name == name)).isSome

/-- The field assignments `update_account` applies to the fetched account:
the name when one is supplied (truthy), the active flag when it is not
`None`. -/
def applyAccountUpdate (update : AccountUpdate) (current : Account) :
    Account :=
  { current with
    name := if isTruthy update.name && (update.name.getD "" != current.name)
      then update.name.getD "" else current.name
    is_active := update.is_active.getD current.is_active }

/-- `AccountOut.model_validate(a)`. -/
def toAccountOut (a : Account) : AccountOut :=
  { id := a.id, name := a.name, is_active := a.is_active
    created_at := a.created_at }

/-- `update_account` (`app/services/account_service.py`): fetch by id
(404 when unknown); when a truthy new name differs from the current one,
`account_name_exists` guards the rename with HTTP 400
"Account name already exists"; then the supplied fields are applied and
committed (the commit rewrites the fetched row). -/
def update_account (account_id : Nat) (update : AccountUpdate)
    (db : Store) : Except Err (Store × AccountOut) :=
  match findAccountById db account_id with
  | none => .error (.http 404 "Account not found")
  | some account =>
    if isTruthy update.name && (update.name.getD "" != account.name)
        && account_name_exists (update.name.getD "") db then
      .error (.http 400 "Account name already exists")
    else
      let account' := applyAccountUpdate update account
      .ok ({ db with accounts := db.accounts.map (fun a =>
          if a.id == account_id then applyAccountUpdate update a else a) },
        toAccountOut account')

/-- The active-account name resolution of the summary aggregation
(`select(DBAccount.id).where(name == account_name, is_active == True)`
followed by taking the first row): exact, case-sensitive match. -/
def findActiveAccountExact (db : Store) (n : String) : Option Account :=
  db.accounts.find? (fun a => a.name == n && a.is_active)

/-- The `where` clauses of the summary aggregation applied to one row. -/
def summaryMatches (account_id : Option Nat) (currency : Option String)
    (start_date end_date : Option Int) (e : LedgerEntry) : Bool :=
  !e.is_deleted
  && (match account_id with
      | some i => e.account_id == i
      | none => true)
  && (if isTruthy currency then
        e.currency == (currency.getD "").toUpper
      else true)
  && (match start_date with
      | some d => decide (d ≤ e.date)
      | none => true)
  && (match end_date with
      | some d => decide (e.date ≤ d)
      | none => true)

/-- Sum of the amounts of a list of entries (in cents); the SQL
`coalesce(sum(amount), 0.00)` of an empty group is the empty sum `0`. -/
def sumAmounts (l : List LedgerEntry) : ℤ :=
  (l.map (·.amount)).sum

/-- The `group_by(entry_type)` aggregation of `get_summary` followed by the
zero-defaulting dictionary fill and the exact balance comparison. -/
def mkSummary (l : List LedgerEntry) : SummaryOut :=
  let debits := l.filter (fun e => e.entry_type == EntryType.debit)
  let credits := l.filter (fun e => e.entry_type == EntryType.credit)
  { num_debits := debits.length
    total_debit_amount := sumAmounts debits
    num_credits := credits.length
    total_credit_amount := sumAmounts credits
    is_balanced := sumAmounts debits == sumAmounts credits }

/-- The zero summary the short-circuit at `summary_service.py:38-44` builds
when the requested account name resolves to no active account. -/
def zeroSummary : SummaryOut :=
  { num_debits := 0
    total_debit_amount := 0
    num_credits := 0
    total_credit_amount := 0
    is_balanced := true }

/-- `get_summary` (`app/services/summary_service.py`) as the code runs
against a real `AsyncSession`: `db.execute` returns a *synchronous*
`Result`, so `await result.first()` (line 36, reached whenever the account
name is truthy) and `await result.all()` (line 69, reached otherwise)
`await` a non-awaitable and raise `TypeError` unconditionally — no call
returns a `SummaryOut`.  (Every other call site in the repository uses the
sync `Result` API without `await`; the unit tests only pass by mocking
`first`/`all` as awaitables.) -/
def get_summary (account_name currency : Option String)
    (start_date end_date : Option Int) (db : Store) :
    Except Err SummaryOut :=
  if isTruthy account_name then
    -- account_row = await result.first()  -- awaits a sync Result: TypeError
    .error .pyTypeError
  else
    -- rows = await result.all()  -- awaits a sync list: TypeError
    .error .pyTypeError

/-- The aggregation the body of `get_summary` is written to compute — the
same control flow with the two spurious `await`s of
`summary_service.py:36,69` removed, i.e. `result.first()`/`result.all()`
called the way every other call site in the repository uses the sync
`Result` API and the way the unit tests mock them.  Date filters are taken
as already-parsed timestamps, matching the service signature
(`Optional[datetime]`). -/
def get_summary_intended (account_name currency : Option String)
    (start_date end_date : Option Int) (db : Store) : SummaryOut :=
  if isTruthy account_name then
    match findActiveAccountExact db (account_name.getD "") with
    | none => zeroSummary
    | some a =>
      mkSummary (db.entries.filter
        (summaryMatches (some a.id) currency start_date end_date))
  else
    mkSummary (db.entries.filter
      (summaryMatches none currency start_date end_date))

/-! ## Concrete fixtures

Small stores and requests used to instantiate the theorems below on
concrete inputs. -/

/-- A sample exchange rate (1.41 USD→CAD), an exact rational as every Python
float is. -/
def conRate : ℚ := 141 / 100

/-- An active account named "Cash". -/
def acctCash : Account :=
  { id := 1, name := "Cash", is_active := true, created_at := 0 }

/-- A stored, non-deleted debit entry of 50.00 USD against `acctCash`. -/
def entryStored : LedgerEntry :=
  { id := 10, account_id := 1, date := 100, entry_type := .debit
    amount := 5000, currency := "USD", description := some "coffee"
    created_at := 50, updated_at := 50, is_deleted := false, version := 1
    idempotency_key := "key-0001-abcd" }

/-- A stored, non-deleted credit entry of 50.00 USD against `acctCash`. -/
def entryCredit : LedgerEntry :=
  { id := 11, account_id := 1, date := 90, entry_type := .credit
    amount := 5000, currency := "USD", description := none
    created_at := 50, updated_at := 50, is_deleted := false, version := 1
    idempotency_key := "key-0002-abcd" }

/-- Store with the "Cash" account and the stored debit entry. -/
def dbOne : Store := { accounts := [acctCash], entries := [entryStored] }

/-- Store with one balanced debit/credit pair. -/
def dbBal : Store :=
  { accounts := [acctCash], entries := [entryStored, entryCredit] }

/-- A create request whose payload coincides with `entryStored`. -/
def reqMatch : LedgerEntryCreate :=
  { account_name := "Cash", date := some 100, entry_type := .debit
    amount := 5000, currency := "USD", description := some "coffee"
    idempotency_key := "key-0001-abcd" }

/-- The same request with a different amount. -/
def reqDiffAmount : LedgerEntryCreate := { reqMatch with amount := 7500 }

/-- `entryStored` after a soft delete. -/
def entryDeleted : LedgerEntry :=
  { entryStored with is_deleted := true, version := 2 }

/-- Store whose only entry is soft-deleted. -/
def dbDeleted : Store :=
  { accounts := [acctCash], entries := [entryDeleted] }

/-- An active account that is being renamed. -/
def acctOps : Account :=
  { id := 1, name := "Ops", is_active := true, created_at := 0 }

/-- An inactive account holding the name "Target". -/
def acctTargetInactive : Account :=
  { id := 2, name := "Target", is_active := false, created_at := 0 }

/-- Store for the rename scenario: no *active* account holds "Target". -/
def dbRename : Store :=
  { accounts := [acctOps, acctTargetInactive], entries := [] }

/-- A rename of an account to "Target". -/
def updTarget : AccountUpdate := { name := some "Target", is_active := none }

/-! ## Helper lemmas -/

/-- After `updateActiveEntry eid (softDelete now)`, no non-deleted row with
id `eid` remains: the fetch of a later update or delete finds nothing. -/
theorem findActiveEntry_after_softDelete (now : Int) (eid : Nat)
    (db : Store) :
    findActiveEntry (updateActiveEntry eid (softDelete now) db) eid
      = none := by
  apply List.find?_eq_none.mpr
  intro x hx
  simp only [updateActiveEntry, List.mem_map] at hx
  obtain ⟨y, hy, rfl⟩ := hx
  by_cases hc : (y.id == eid && !y.is_deleted) = true
  · simp [hc, softDelete]
  · simp only [if_neg hc]
    simpa using hc

/-- `parseEtFilter` fails only with an uncaught `ValueError`. -/
theorem parseEtFilter_error {o : Option String} {e : Err}
    (h : parseEtFilter o = .error e) : e = .pyValueError := by
  unfold parseEtFilter at h
  by_cases ht : isTruthy o = true
  · rw [if_pos ht] at h
    cases hp : parseEntryType (o.getD "") with
    | some t => rw [hp] at h; cases h
    | none => rw [hp] at h; cases h; rfl
  · rw [if_neg ht] at h
    cases h

/-- `parseDateFilter` fails only with an uncaught `ValueError`. -/
theorem parseDateFilter_error {o : Option String} {e : Err}
    (h : parseDateFilter o = .error e) : e = .pyValueError := by
  unfold parseDateFilter at h
  by_cases ht : isTruthy o = true
  · rw [if_pos ht] at h
    cases hp : parseDate (o.getD "") with
    | some d => rw [hp] at h; cases h
    | none => rw [hp] at h; cases h; rfl
  · rw [if_neg ht] at h
    cases h

/-! ## Claim theorems -/

/-- Claim C2: a Create whose idempotency key is already stored but whose
account id, entry kind, amount, currency or normalised description differs
from the stored entry fails with HTTP 409 Conflict
"Idempotency key already used with different data"; the error is raised
before any `db.add`/`commit`, so the store is untouched. -/
theorem create_entry_idempotency_conflict (rate : ℚ) (newId : Nat)
    (now : Int) (entry : LedgerEntryCreate) (db : Store)
    (account : Account) (e : LedgerEntry)
    (hacct : findActiveAccount db entry.account_name = some account)
    (hkey : findByIdemKey db entry.idempotency_key = some e)
    (hdiff : e.account_id ≠ account.id ∨ e.entry_type ≠ entry.entry_type
      ∨ e.amount ≠ entry.amount ∨ e.currency ≠ entry.currency
      ∨ descNorm e.description ≠ descNorm entry.description) :
    create_entry rate newId now entry db
      = .error (.http 409 "Idempotency key already used with different data")
    := by
  simp only [create_entry, hacct, hkey]
  rw [if_pos hdiff]

/-- Claim C2 witness: replay with a different amount conflicts. -/
theorem create_entry_idempotency_conflict_witness :
    create_entry conRate 99 500 reqDiffAmount dbOne
      = .error (.http 409 "Idempotency key already used with different data")
    :=
  create_entry_idempotency_conflict conRate 99 500 reqDiffAmount dbOne
    acctCash entryStored (by decide) (by decide)
    (Or.inr (Or.inr (Or.inl (by decide))))

/-- Claim C3 counterexample: on a soft-deleted entry, an Update supplying no
fields fails with HTTP 400 "No fields provided to update" — not with
NotFound as the claim states for every subsequent Update: the
no-fields guard runs before the store is consulted. -/
theorem update_deleted_no_fields_counterexample :
    entryDeleted.is_deleted = true
    ∧ update_entry conRate 0 10 { amount := none, description := none }
        dbDeleted = .error (.http 400 "No fields provided to update")
    ∧ Err.http 400 "No fields provided to update"
        ≠ Err.http 404 "Ledger entry not found" := by
  decide

/-- Claim C3 (amended): a successful Delete of a non-deleted entry marks it
deleted and bumps its version by exactly 1; afterwards every Delete, and
every Update that supplies at least one field, on that id fails with HTTP
404 NotFound (an Update supplying no fields fails with HTTP 400 before the
store is consulted); Deleted is terminal. -/
theorem delete_entry_terminal (now : Int) (eid : Nat) (db : Store)
    (e : LedgerEntry) (h : findActiveEntry db eid = some e) :
    delete_entry now eid db
      = .ok (updateActiveEntry eid (softDelete now) db,
          { id := e.id, is_deleted := true, version := e.version + 1 })
    ∧ (∀ (rate : ℚ) (now2 : Int) (upd : LedgerEntryUpdate),
        upd.amount ≠ none ∨ upd.description ≠ none →
        update_entry rate now2 eid upd
            (updateActiveEntry eid (softDelete now) db)
          = .error (.http 404 "Ledger entry not found"))
    ∧ (∀ now2 : Int,
        delete_entry now2 eid (updateActiveEntry eid (softDelete now) db)
          = .error (.http 404 "Ledger entry not found")) := by
  refine ⟨?_, ?_, ?_⟩
  · simp only [delete_entry, h]
  · intro rate now2 upd hupd
    have hne : ¬(upd.amount = none ∧ upd.description = none) := by
      rcases hupd with h1 | h1 <;> intro h2 <;> exact h1 (by
        rcases h2 with ⟨ha, hd⟩
        first
          | exact ha
          | exact hd)
    simp only [update_entry, if_neg hne,
      findActiveEntry_after_softDelete]
  · intro now2
    simp only [delete_entry, findActiveEntry_after_softDelete]

/-- Claim C3 witness: deleting the stored entry of `dbOne` and then
updating it again. -/
theorem delete_entry_terminal_witness :
    delete_entry 77 10 dbOne
      = .ok (updateActiveEntry 10 (softDelete 77) dbOne,
          { id := 10, is_deleted := true, version := 2 })
    ∧ update_entry conRate 88 10 { amount := some 1, description := none }
        (updateActiveEntry 10 (softDelete 77) dbOne)
      = .error (.http 404 "Ledger entry not found") := by
  have h := delete_entry_terminal 77 10 dbOne entryStored (by decide)
  exact ⟨h.1, h.2.1 conRate 88 { amount := some 1, description := none }
    (Or.inl (by decide))⟩

/-- Claim C6 counterexample: a List call whose `start_date` does not parse
fails with an uncaught `ValueError` (`datetime.fromisoformat` is not
guarded), not with the BadRequest "invalid date format" the claim states. -/
theorem list_entries_bad_date_counterexample :
    list_entries conRate none none none (some "not-a-date") none 10 0 dbOne
      = .error Err.pyValueError
    ∧ Err.pyValueError ≠ Err.http 400 "invalid date format" := by
  decide

/-- Claim C6 (amended): a List call whose truthy `start_date` filter or
truthy `end_date` filter is not a parseable date fails with an uncaught
`ValueError` (surfaced as an internal server error), not with a
BadRequest. -/
theorem list_entries_bad_date (rate : ℚ)
    (an cur et sd ed : Option String) (limit offset : Nat) (db : Store)
    (hbad : (isTruthy sd = true ∧ parseDate (sd.getD "") = none)
      ∨ (isTruthy ed = true ∧ parseDate (ed.getD "") = none)) :
    list_entries rate an cur et sd ed limit offset db
      = .error .pyValueError := by
  unfold list_entries
  cases het : parseEtFilter et with
  | error e => rw [parseEtFilter_error het]
  | ok etf =>
    rcases hbad with ⟨hsd, hp⟩ | ⟨hed, hp⟩
    · have hsdf : parseDateFilter sd = .error .pyValueError := by
        simp [parseDateFilter, hsd, hp]
      rw [hsdf]
    · cases hsdf : parseDateFilter sd with
      | error e2 => rw [parseDateFilter_error hsdf]
      | ok sdf =>
        have hedf : parseDateFilter ed = .error .pyValueError := by
          simp [parseDateFilter, hed, hp]
        rw [hedf]

/-- Claim C6 witness: a concrete unparseable `end_date` ("garbage-date",
which `datetime.fromisoformat` rejects) with no `start_date` supplied. -/
theorem list_entries_bad_date_witness :
    list_entries conRate none none none none (some "garbage-date") 5 0
      dbBal = .error .pyValueError :=
  list_entries_bad_date conRate none none none none (some "garbage-date")
    5 0 dbBal (Or.inr ⟨by decide, by decide⟩)

/-- Claim C7 counterexample: `dbRename` has no *active* account named
"Target" (only the inactive `acctTargetInactive` holds that name), yet
renaming the active account `acctOps` to "Target" fails with HTTP 400
"Account name already exists": `account_name_exists` checks all accounts,
active or not, so renaming to a name held only by inactive accounts does
not succeed as the claim states. -/
theorem update_account_rename_counterexample :
    (dbRename.accounts.find? (fun a => a.name == "Target" && a.is_active)
      = none)
    ∧ update_account 1 updTarget dbRename
      = .error (.http 400 "Account name already exists") := by
  decide

/-- Claim C7 (amended): an account Update supplying a truthy new name that
differs from the current name fails (HTTP 400 "Account name already
exists") if and only if some account — active or inactive — already holds
the new name; renaming to a name held only by inactive accounts fails
too. -/
theorem update_account_rename_conflict (aid : Nat)
    (update : AccountUpdate) (db : Store) (account : Account)
    (hfind : findAccountById db aid = some account)
    (htruthy : isTruthy update.name = true)
    (hdiff : update.name.getD "" ≠ account.name) :
    (update_account aid update db
        = .error (.http 400 "Account name already exists"))
      ↔ account_name_exists (update.name.getD "") db = true := by
  simp only [update_account, hfind]
  cases hex : account_name_exists (update.name.getD "") db with
  | false => simp [htruthy, hdiff, hex]
  | true => simp [htruthy, hdiff, hex]

/-- Claim C7 witness: the rename of `acctOps` to "Target". -/
theorem update_account_rename_conflict_witness :
    (update_account 1 updTarget dbRename
        = .error (.http 400 "Account name already exists"))
      ↔ account_name_exists (updTarget.name.getD "") dbRename = true :=
  update_account_rename_conflict 1 updTarget dbRename acctOps
    (by decide) (by decide) (by decide)

/-- Claim C8: the claim (and the spec) says a GetSummary whose truthy
account name resolves to no active account succeeds with the zero summary;
the code as written instead raises `TypeError` — `summary_service.py:36`
awaits the synchronous `Result.first()` — before the zero-summary
short-circuit can run, so the call surfaces an internal server error.  The
claimed behaviour holds of the intended aggregation (the same body with
the spurious awaits removed, as the repository's own unit tests assert):
the zero summary, identical for every entries table, so the entry store is
never consulted. -/
theorem get_summary_unknown_account (an : String) (cur : Option String)
    (sd ed : Option Int) (db : Store)
    (htruthy : isTruthy (some an) = true)
    (hnone : findActiveAccountExact db an = none) :
    get_summary (some an) cur sd ed db = .error .pyTypeError
    ∧ get_summary_intended (some an) cur sd ed db = zeroSummary := by
  constructor
  · simp [get_summary, htruthy]
  · simp [get_summary_intended, htruthy, hnone]

/-- Claim C8 witness: summary for the unknown account name "Ghost". -/
theorem get_summary_unknown_account_witness :
    get_summary (some "Ghost") none none none dbBal = .error .pyTypeError
    ∧ get_summary_intended (some "Ghost") none none none dbBal
      = zeroSummary :=
  get_summary_unknown_account "Ghost" none none none dbBal
    (by decide) (by decide)

/-- Claim C9: the code never produces a GetSummary result at all — every
call raises `TypeError` (`summary_service.py:36/69` await the synchronous
`Result`), so the claimed biconditional quantifies over results the
program cannot return.  It does hold of the intended aggregation (the
same body with the spurious awaits removed): `is_balanced` exactly when
the total debit amount equals the total credit amount (exact decimal
equality), with a kind that has no matching entries contributing count 0
and total 0.00. -/
theorem get_summary_balanced :
    (∀ (an cur : Option String) (sd ed : Option Int) (db : Store),
      get_summary an cur sd ed db = .error .pyTypeError)
    ∧ (∀ (an cur : Option String) (sd ed : Option Int) (db : Store),
      (get_summary_intended an cur sd ed db).is_balanced = true
        ↔ (get_summary_intended an cur sd ed db).total_debit_amount
            = (get_summary_intended an cur sd ed db).total_credit_amount)
    ∧ (∀ l : List LedgerEntry,
        (l.filter (fun e => e.entry_type == EntryType.debit) = [] →
          (mkSummary l).num_debits = 0
          ∧ (mkSummary l).total_debit_amount = 0)
        ∧ (l.filter (fun e => e.entry_type == EntryType.credit) = [] →
          (mkSummary l).num_credits = 0
          ∧ (mkSummary l).total_credit_amount = 0)) := by
  refine ⟨?_, ?_, ?_⟩
  · intro an cur sd ed db
    unfold get_summary
    split_ifs <;> rfl
  · intro an cur sd ed db
    unfold get_summary_intended
    split_ifs with h
    · cases hfa : findActiveAccountExact db (an.getD "") with
      | none => simp [zeroSummary]
      | some a => simp [mkSummary, beq_iff_eq]
    · simp [mkSummary, beq_iff_eq]
  · intro l
    constructor <;> intro h <;>
      simp [mkSummary, h, sumAmounts]

/-- Claim C9 witness: the `TypeError` on `dbBal`, the balance iff of the
intended aggregation on `dbBal`, and the empty debit group. -/
theorem get_summary_balanced_witness :
    get_summary none none none none dbBal = .error .pyTypeError
    ∧ (get_summary_intended none none none none dbBal).is_balanced = true
    ∧ (mkSummary []).num_debits = 0
    ∧ (mkSummary []).total_debit_amount = 0 :=
  ⟨get_summary_balanced.1 none none none none dbBal,
    (get_summary_balanced.2.1 none none none none dbBal).mpr (by decide),
    ((get_summary_balanced.2.2 []).1 rfl).1,
    ((get_summary_balanced.2.2 []).1 rfl).2⟩

end Ledger
